import Mathlib

/-!
Shallow embedding of the schema-driven record normalization core of
`src/pattern#1/dataflow_ingestion_configurable.py`.

The Python source is Python-2 era code (it calls `str.decode` on string
values).  Records and schemas are ordered mappings; they are embedded as
association lists (`List (String × _)`) that preserve insertion order.
Python exceptions are embedded with `Except PyErr`.  `time.mktime` is
modelled with the process timezone fixed to UTC, and its (integral-valued)
float result is represented by the integer it truncates to.
-/

set_option autoImplicit false

/-- Kinds of Python exception that the embedded code can raise. -/
inductive PyErr
  | typeError
  | valueError
  | keyError
deriving DecidableEq, Repr

/-- A Python value as it appears in a normalized record: a text string, an
integer (from `int(v)` or the integer timestamp path), a successfully parsed
float literal (the numeric value of the float is not needed by any claim, so the
stripped literal is kept), or an integral `time.mktime` result. -/
inductive Value
  | vStr (s : String)
  | vInt (n : Int)
  | vFloat (lit : String)
  | vTime (t : Int)
deriving DecidableEq, Repr

/-- Lookup in a Python mapping embedded as an association list: first
matching key wins (actual Python dicts have unique keys). -/
def dictGet {α : Type} : List (String × α) → String → Option α
  | [], _ => none
  | (k, v) :: rest, key => if k = key then some v else dictGet rest key

/-- Assignment `d[key] = v` on a Python mapping embedded as an association
list: replace the first binding of `key`, or append a new binding, keeping
insertion order as Python dicts do. -/
def dictSet {α : Type} : List (String × α) → String → α → List (String × α)
  | [], key, v => [(key, v)]
  | (k, w) :: rest, key, v =>
    if k = key then (key, v) :: rest else (k, w) :: dictSet rest key v

/-- The broken-down time produced by `time.strptime` (only the components
the embedded formats use). -/
structure Tm where
  year : Nat
  mon : Nat
  mday : Nat
  hour : Nat
  minute : Nat
  sec : Nat
deriving DecidableEq, Repr

/-- Components `time.strptime` defaults to when a directive is absent from
the format: 1900-01-01 00:00:00. -/
def tmDefault : Tm := ⟨1900, 1, 1, 0, 0, 0⟩

/-- Numeric value of a decimal digit character. -/
def digVal (c : Char) : Nat := c.toNat - 48

/-- Tokens of a `strptime` format string: a literal character, a whitespace
run, or one of the directives used by the three formats of the source. -/
inductive FTok
  | lit (c : Char)
  | ws
  | pY
  | pm
  | pd
  | pH
  | pM
  | pS
  | pZ
deriving DecidableEq, Repr

/-- Tokenize a `strptime` format string (directives outside the set used by
the source are not modelled and yield `none`). -/
def fmtToks : List Char → Option (List FTok)
  | [] => some []
  | '%' :: c :: rest =>
    (match c with
      | 'Y' => some FTok.pY
      | 'm' => some FTok.pm
      | 'd' => some FTok.pd
      | 'H' => some FTok.pH
      | 'M' => some FTok.pM
      | 'S' => some FTok.pS
      | 'Z' => some FTok.pZ
      | _ => none).bind fun t => (fmtToks rest).map fun ts => t :: ts
  | c :: rest =>
    (fmtToks rest).map fun ts => (if c.isWhitespace then FTok.ws else FTok.lit c) :: ts

/-- Match a one- or two-digit numeric field the way the CPython `_strptime`
regexes do: a two-digit reading is taken when its value lies in
`[lo2, hi2]`, otherwise a single digit is taken (which must be nonzero for
directives whose single-digit alternative is `[1-9]`). -/
def matchTwoOne (lo2 hi2 : Nat) (zeroOk : Bool) : List Char → Option (Nat × List Char)
  | a :: b :: rest =>
    if a.isDigit ∧ b.isDigit ∧ lo2 ≤ 10 * digVal a + digVal b ∧ 10 * digVal a + digVal b ≤ hi2 then
      some (10 * digVal a + digVal b, rest)
    else if a.isDigit ∧ (zeroOk ∨ 1 ≤ digVal a) then
      some (digVal a, b :: rest)
    else none
  | [a] =>
    if a.isDigit ∧ (zeroOk ∨ 1 ≤ digVal a) then some (digVal a, []) else none
  | [] => none

/-- Run a tokenized format against an input character list, threading the
partially filled `Tm`; the whole input must be consumed (CPython raises
ValueError "unconverted data remains" otherwise, embedded as `none`).
`%Y` is exactly four digits; `%Z` accepts the UTC/GMT timezone names
case-insensitively (the process timezone is modelled as UTC). -/
def matchToks : List FTok → List Char → Tm → Option Tm
  | [], cs, tm => if cs = [] then some tm else none
  | t :: ts, cs, tm =>
    match t with
    | FTok.lit c =>
      match cs with
      | x :: xs => if x = c then matchToks ts xs tm else none
      | [] => none
    | FTok.ws =>
      match cs with
      | x :: xs =>
        if x.isWhitespace then matchToks ts (xs.dropWhile Char.isWhitespace) tm else none
      | [] => none
    | FTok.pY =>
      match cs with
      | a :: b :: c :: d :: rest =>
        if a.isDigit ∧ b.isDigit ∧ c.isDigit ∧ d.isDigit then
          matchToks ts rest
            { tm with year := 1000 * digVal a + 100 * digVal b + 10 * digVal c + digVal d }
        else none
      | _ => none
    | FTok.pm =>
      match matchTwoOne 1 12 false cs with
      | some (n, rest) => matchToks ts rest { tm with mon := n }
      | none => none
    | FTok.pd =>
      match matchTwoOne 1 31 false cs with
      | some (n, rest) => matchToks ts rest { tm with mday := n }
      | none => none
    | FTok.pH =>
      match matchTwoOne 0 23 true cs with
      | some (n, rest) => matchToks ts rest { tm with hour := n }
      | none => none
    | FTok.pM =>
      match matchTwoOne 0 59 true cs with
      | some (n, rest) => matchToks ts rest { tm with minute := n }
      | none => none
    | FTok.pS =>
      match matchTwoOne 0 61 true cs with
      | some (n, rest) => matchToks ts rest { tm with sec := n }
      | none => none
    | FTok.pZ =>
      match cs with
      | a :: b :: c :: rest =>
        if (a.toLower = 'u' ∧ b.toLower = 't' ∧ c.toLower = 'c') ∨
            (a.toLower = 'g' ∧ b.toLower = 'm' ∧ c.toLower = 't') then
          matchToks ts rest tm
        else none
      | _ => none

/-- Embedding of `time.strptime(v, fmt)` for the format strings the source
uses, returning `none` where CPython raises ValueError. -/
def strptime (v fmt : String) : Option Tm :=
  match fmtToks fmt.toList with
  | some ts => matchToks ts v.toList tmDefault
  | none => none

/-- Gregorian leap-year test. -/
def isLeap (y : Nat) : Bool := y % 4 = 0 && (y % 100 ≠ 0 || y % 400 = 0)

/-- Days in the months strictly before month `m` (1-based) of a year. -/
def cumDaysBeforeMonth (leap : Bool) (m : Nat) : Nat :=
  [0, 31, 59, 90, 120, 151, 181, 212, 243, 273, 304, 334].getD (m - 1) 0
    + (if leap && m > 2 then 1 else 0)

/-- Days from 0001-01-01 to the start of year `y` (proleptic Gregorian). -/
def daysBeforeYear (y : Nat) : Nat :=
  365 * (y - 1) + (y - 1) / 4 - (y - 1) / 100 + (y - 1) / 400

/-- Day number of a civil date, counted from 0001-01-01; days past the end
of a month roll over, matching `mktime` normalization. -/
def civilDays (y m d : Nat) : Nat :=
  daysBeforeYear y + cumDaysBeforeMonth (isLeap y) m + (d - 1)

/-- Embedding of `time.mktime` with the process timezone fixed to UTC: the
epoch-second count of a broken-down time (the real function returns this
value as a float; its integral value is kept as an `Int`). -/
def mktime (tm : Tm) : Int :=
  86400 * ((civilDays tm.year tm.mon tm.mday : Int) - (civilDays 1970 1 1 : Int))
    + 3600 * (tm.hour : Int) + 60 * (tm.minute : Int) + (tm.sec : Int)

/-- The ordered format list `self._time_format` of `PrepareFieldTypes`: the
constructor-default primary format followed by the two fallback formats. -/
def time_format : List String :=
  ["%Y-%m-%d %H:%M:%S %Z", "%Y-%m-%d %H:%M:%S", "%Y-%m-%d"]

/-- Strip leading and trailing whitespace, as the Python strip method does
before numeric conversion. -/
def pyStrip (s : String) : List Char :=
  ((s.toList.dropWhile Char.isWhitespace).reverse.dropWhile Char.isWhitespace).reverse

/-- Value of a nonempty all-digit character list, else `none`. -/
def natOfDigits (cs : List Char) : Option Nat :=
  if cs ≠ [] ∧ cs.all Char.isDigit then
    some (cs.foldl (fun acc c => 10 * acc + digVal c) 0)
  else none

/-- Embedding of the Python call `int(v)` on a string: optional sign around a
nonempty digit string after stripping whitespace; `none` where CPython
raises ValueError. -/
def pyInt (s : String) : Option Int :=
  match pyStrip s with
  | '+' :: rest => (natOfDigits rest).map fun n => (n : Int)
  | '-' :: rest => (natOfDigits rest).map fun n => -(n : Int)
  | cs => (natOfDigits cs).map fun n => (n : Int)

/-- Drop one optional leading sign character. -/
def dropSign : List Char → List Char
  | '+' :: rest => rest
  | '-' :: rest => rest
  | cs => cs

/-- Check an optional exponent suffix of a float literal. -/
def expOk : List Char → Bool
  | [] => true
  | c :: rest =>
    (c = 'e' || c = 'E') &&
      (let r := dropSign rest
       r ≠ [] && r.all Char.isDigit)

/-- Check the unsigned body of a Python float literal in decimal notation. -/
def floatDigitsPart (cs : List Char) : Bool :=
  let intPart := cs.takeWhile Char.isDigit
  let rest := cs.dropWhile Char.isDigit
  match rest with
  | '.' :: rest2 =>
    let frac := rest2.takeWhile Char.isDigit
    let rest3 := rest2.dropWhile Char.isDigit
    decide (intPart.length + frac.length > 0) && expOk rest3
  | _ => decide (intPart.length > 0) && expOk rest

/-- Lowercase a character list. -/
def lowerStr (cs : List Char) : List Char := cs.map Char.toLower

/-- Embedding of the Python call `float(v)` on a string: `none` where CPython
raises ValueError, and on success the stripped literal (no claim inspects
the floating-point value itself, so it is not computed). -/
def pyFloat (s : String) : Option String :=
  let t := pyStrip s
  let body := dropSign t
  if floatDigitsPart body ∨ lowerStr body = "inf".toList ∨
      lowerStr body = "infinity".toList ∨ lowerStr body = "nan".toList then
    some (String.mk t)
  else none

/-- Embedding of the Python-2 call of decode on a string value with the
configured encoding and with undecodable bytes ignored: ignoring errors
means the call never raises, and on the already-decoded text of the
embedding it is the identity. -/
def pyDecode (v : String) : String := v

/-- Embedding of `PrepareFieldTypes._return_default_value`.  The source
tests the misspelled type name DATATIME where DATETIME is meant, so the
epoch-of-1970-01-01 branch is reachable only for the misspelling and the
real DATETIME type falls through to the final else. -/
def return_default_value (ftype : String) : Value :=
  if ftype = "INTEGER" then Value.vInt 0
  else if ftype = "FLOAT" then Value.vInt 0
  else if ftype = "DATATIME" then
    match strptime "1970-01-01" "%Y-%m-%d" with
    | some tm => Value.vTime (mktime tm)
    | none => Value.vStr ""
  else if ftype = "TIMESTAMP" then Value.vInt 0
  else Value.vStr ""

/-- Embedding of `time.strptime(v, fmts)` where `fmts` is the whole format
list rather than one format string: CPython strptime requires a string
format and raises TypeError on a list argument, unconditionally. -/
def strptimeListArg (_ : String) (_ : List String) : Except PyErr Tm :=
  Except.error PyErr.typeError

/-- The loop of the TIMESTAMP branch of `PrepareFieldTypes.process`: try each
format in order, first successful `int(mktime(strptime(v, fmt)))` wins
(the per-format ValueError is passed over); `none` when every format
fails, leaving `v` a string so the isinstance int check fires. -/
def timestampLoop : List String → String → Option Int
  | [], _ => none
  | fmt :: rest, v =>
    match strptime v fmt with
    | some tm => some (mktime tm)
    | none => timestampLoop rest v

/-- The body of the per-field loop of `PrepareFieldTypes.process`, inside
its try block: the branch on the declared type name, with exceptions the
branch raises surfaced in `Except`. -/
def coerceValueTry (ftype : String) (v : String) : Except PyErr Value :=
  if v = "" then Except.ok (return_default_value ftype)
  else if ftype = "STRING" then Except.ok (Value.vStr (pyDecode v))
  else if ftype = "INTEGER" then
    match pyInt v with
    | some n => Except.ok (Value.vInt n)
    | none => Except.error PyErr.valueError
  else if ftype = "FLOAT" then
    match pyFloat v with
    | some lit => Except.ok (Value.vFloat lit)
    | none => Except.error PyErr.valueError
  else if ftype = "DATETIME" then
    Except.ok
      (match strptimeListArg v time_format with
        | Except.ok tm => Value.vTime (mktime tm)
        | Except.error _ => return_default_value ftype)
  else if ftype = "TIMESTAMP" then
    Except.ok
      (match timestampLoop time_format v with
        | some n => Value.vInt n
        | none => return_default_value ftype)
  else Except.ok (return_default_value ftype)

/-- The per-field coercion of `PrepareFieldTypes.process`: the loop body
wrapped in its outer `except (TypeError, ValueError)` handler, which
substitutes the default of the declared type on failure. -/
def coerceValue (ftype : String) (v : String) : Value :=
  match coerceValueTry ftype v with
  | Except.ok val => val
  | Except.error _ => return_default_value ftype

/-- The per-field traversal of `PrepareFieldTypes.process` over the items
of the element in their insertion order: looking up a key missing from
`fields` raises KeyError (the outer handler catches only TypeError and
ValueError). -/
def processFields :
    List (String × String) → List (String × String) → Except PyErr (List (String × Value))
  | [], _ => Except.ok []
  | (k, v) :: rest, fields =>
    match dictGet fields k with
    | none => Except.error PyErr.keyError
    | some ftype =>
      match processFields rest fields with
      | Except.ok out => Except.ok ((k, coerceValue ftype v) :: out)
      | Except.error e => Except.error e

/-- Embedding of `PrepareFieldTypes.process`: `Except.ok none` is the Skip
outcome (the Python method returns the empty list of records, leaving the
element untouched).  Every embedded element supports length introspection,
so the hasattr len guard of the source never fires here; the remaining guard
skips on a field-count mismatch with the schema. -/
def process (element : List (String × String)) (fields : List (String × String)) :
    Except PyErr (Option (List (String × Value))) :=
  if element.length ≠ fields.length then Except.ok none
  else (processFields element fields).map some

/-- Embedding of `InjectTimestamp.process`: sets the reserved key to
`int(time.mktime(time.gmtime()))`, whose value is passed in as `now`. -/
def injectTimestamp (now : Int) (element : List (String × Value)) : List (String × Value) :=
  dictSet element "_RAWTIMESTAMP" (Value.vInt now)

/-- Embedding of the `FileCoder` class: it stores the ordered column list
given to its constructor (the delimiter is the comma). -/
structure FileCoder where
  columns : List String
deriving Repr

/-- Minimal quoting of one CSV field as `csv.writer` does with
QUOTE_MINIMAL: the field is wrapped in double quotes exactly when it
contains the delimiter, the quote character, or a line-terminator
character, and embedded quote characters are doubled. -/
def quoteMinimal (s : String) : String :=
  if s.toList.any (fun c => c = ',' || c = '"' || c = '\r' || c = '\n') then
    "\"" ++ String.join (s.toList.map fun c => if c = '"' then "\"\"" else c.toString) ++ "\""
  else s

/-- Embedding of `FileCoder.encode`: `csv.DictWriter.writerow` over the
stored columns (a key of the record outside the column list raises
ValueError; a missing column is written with the None restval, which the
writer renders as the empty field), followed by stripping the written
line terminator. -/
def FileCoder.encode (coder : FileCoder) (value : List (String × String)) :
    Except PyErr String :=
  if value.any (fun kv => !(coder.columns.contains kv.1)) then Except.error PyErr.valueError
  else
    Except.ok
      (String.intercalate ","
        (coder.columns.map fun k => quoteMinimal ((dictGet value k).getD "")))

/-- Embedding of `FileCoder.decode`: the source constructs a
`csv.DictWriter` (not a DictReader) over the input and immediately calls
`next` on it; a DictWriter is not an iterator, so the call raises
TypeError before looking at the input. -/
def FileCoder.decode (_ : FileCoder) (_ : String) : Except PyErr (List (String × String)) :=
  Except.error PyErr.typeError

/-- One `TableFieldSchema` entry of the projected BigQuery schema. -/
structure TableFieldSchema where
  name : String
  type : String
  description : String
deriving DecidableEq, Repr

/-- Embedding of `_get_bq_schema`: one entry per schema field in insertion
order, then the trailing injected-timestamp entry (the surrounding
`TableSchema` object is identified with its ordered field list). -/
def get_bq_schema (fields : List (String × String)) : List TableFieldSchema :=
  (fields.map fun kv => ⟨kv.1, kv.2, "Field " ++ kv.1⟩)
    ++ [⟨"_RAWTIMESTAMP", "TIMESTAMP", "Injected timestamp"⟩]

/-- The notion of a malformed raw value for the parser a declared type
uses, per field type: an unparsable integer or float literal, a date
matching none of the three configured formats, and (vacuously) never for
STRING, whose decode call ignores errors; a value of an unrecognized type
is always considered malformed since no parse is attempted. -/
def parseFails (ftype : String) (v : String) : Bool :=
  if ftype = "STRING" then false
  else if ftype = "INTEGER" then (pyInt v).isNone
  else if ftype = "FLOAT" then (pyFloat v).isNone
  else if ftype = "DATETIME" then time_format.all fun f => (strptime v f).isNone
  else if ftype = "TIMESTAMP" then time_format.all fun f => (strptime v f).isNone
  else true

theorem dictGet_dictSet_self {α : Type} (l : List (String × α)) (key : String) (v : α) :
    dictGet (dictSet l key v) key = some v := by
  induction l with
  | nil => simp [dictSet, dictGet]
  | cons hd tl ih =>
    obtain ⟨k, w⟩ := hd
    by_cases h : k = key
    · simp [dictSet, h, dictGet]
    · simp [dictSet, h, dictGet, ih]

theorem dictGet_dictSet_ne {α : Type} (l : List (String × α)) (key k : String) (v : α)
    (h : k ≠ key) : dictGet (dictSet l key v) k = dictGet l k := by
  induction l with
  | nil => simp [dictSet, dictGet, Ne.symm h]
  | cons hd tl ih =>
    obtain ⟨k2, w⟩ := hd
    by_cases h2 : k2 = key
    · subst h2
      simp [dictSet, dictGet, Ne.symm h]
    · simp only [dictSet, if_neg h2, dictGet]
      by_cases h3 : k2 = k
      · simp [h3]
      · simp [h3, ih]

theorem timestampLoop_eq_none (v : String) (fmts : List String)
    (h : ∀ f ∈ fmts, strptime v f = none) : timestampLoop fmts v = none := by
  induction fmts with
  | nil => rfl
  | cons f rest ih =>
    have hf := h f (by simp)
    simp only [timestampLoop, hf]
    exact ih fun g hg => h g (by simp [hg])

theorem coerce_timestamp_eq (v : String) (hv : v ≠ "") :
    coerceValue "TIMESTAMP" v =
      match timestampLoop time_format v with
      | some n => Value.vInt n
      | none => Value.vInt 0 := by
  simp only [coerceValue, coerceValueTry, if_neg hv]
  norm_num
  cases timestampLoop time_format v <;> simp [return_default_value]

theorem processFields_spec (raw fields : List (String × String)) (out : List (String × Value))
    (h : processFields raw fields = Except.ok out) :
    out.map Prod.fst = raw.map Prod.fst ∧
    ∀ (i : Nat) (kv : String × String), raw[i]? = some kv →
      ∃ t, dictGet fields kv.1 = some t ∧ out[i]? = some (kv.1, coerceValue t kv.2) := by
  induction raw generalizing out with
  | nil =>
    simp only [processFields] at h
    obtain rfl : ([] : List (String × Value)) = out := by simpa using h
    exact ⟨rfl, by intro i kv hkv; simp at hkv⟩
  | cons hd tl ih =>
    obtain ⟨k, v⟩ := hd
    simp only [processFields] at h
    cases hdg : dictGet fields k with
    | none => rw [hdg] at h; simp at h
    | some t =>
      rw [hdg] at h
      cases hpf : processFields tl fields with
      | error e => rw [hpf] at h; simp at h
      | ok out0 =>
        rw [hpf] at h
        obtain rfl : (k, coerceValue t v) :: out0 = out := by simpa using h
        obtain ⟨ih1, ih2⟩ := ih out0 hpf
        refine ⟨by simp [ih1], ?_⟩
        intro i kv hkv
        cases i with
        | zero =>
          obtain rfl : (k, v) = kv := by simpa using hkv
          exact ⟨t, hdg, by simp⟩
        | succ n =>
          simp only [List.getElem?_cons_succ] at hkv ⊢
          exact ih2 n kv hkv

/-- C1: the codec round-trip `decode(encode(r, cols), cols) == r` fails on
the code even for a record with no delimiter-breaking characters at all:
`FileCoder.encode` serializes the record correctly, but `FileCoder.decode`
raises TypeError on every input because it calls `next` on a
`csv.DictWriter`, which is not an iterator. -/
theorem c1_codec_roundtrip_broken :
    FileCoder.encode ⟨["a"]⟩ [("a", "x")] = Except.ok "x" ∧
    FileCoder.decode ⟨["a"]⟩ "x" = Except.error PyErr.typeError :=
  ⟨rfl, rfl⟩

/-- C2: the defaults table of `_return_default_value`.  STRING, INTEGER,
FLOAT, TIMESTAMP and unrecognized types match the tabulated defaults, and
an empty raw value short-circuits to the default, but DATETIME does not:
the branch returning the 1970-01-01 epoch tests the misspelled name
DATATIME, so the real DATETIME type falls through to the empty string. -/
theorem c2_default_value_table :
    return_default_value "STRING" = Value.vStr "" ∧
    return_default_value "INTEGER" = Value.vInt 0 ∧
    return_default_value "FLOAT" = Value.vInt 0 ∧
    return_default_value "TIMESTAMP" = Value.vInt 0 ∧
    return_default_value "GEOGRAPHY" = Value.vStr "" ∧
    return_default_value "DATETIME" = Value.vStr "" ∧
    return_default_value "DATATIME" = Value.vTime 0 ∧
    coerceValue "DATETIME" "" = Value.vStr "" := by
  decide

/-- C3: for a non-empty DATETIME value the code never tries the three
formats one by one: it passes the whole format list as the strptime format
argument, which raises TypeError, is caught, and yields the (also buggy)
DATETIME default.  Values that the primary or fallback formats would parse
therefore still coerce to the empty-string default. -/
theorem c3_datetime_formats_never_tried :
    coerceValue "DATETIME" "2020-01-01" = Value.vStr "" ∧
    coerceValue "DATETIME" "2020-01-01 00:00:00" = Value.vStr "" ∧
    coerceValue "DATETIME" "1999-12-31 23:59:59 UTC" = Value.vStr "" ∧
    strptime "2020-01-01" "%Y-%m-%d" = some ⟨2020, 1, 1, 0, 0, 0⟩ ∧
    strptime "1999-12-31 23:59:59 UTC" "%Y-%m-%d %H:%M:%S %Z" =
      some ⟨1999, 12, 31, 23, 59, 59⟩ ∧
    strptimeListArg "2020-01-01" time_format = Except.error PyErr.typeError :=
  ⟨by decide, by decide, by decide, by decide, by decide, rfl⟩

/-- C4: for every declared type and every non-empty raw value that is
malformed for the parser of that type, the per-field coercion returns the
default of the type: the numeric parses raise ValueError into the outer
handler, the DATETIME branch catches its own failure, the TIMESTAMP loop
falls through to the isinstance check, and unknown types never parse; no
exception escapes the per-field coercion. -/
theorem c4_malformed_value_yields_default (ftype v : String) (hv : v ≠ "")
    (hm : parseFails ftype v = true) :
    coerceValue ftype v = return_default_value ftype := by
  by_cases hS : ftype = "STRING"
  · rw [hS] at hm; simp [parseFails] at hm
  · by_cases hI : ftype = "INTEGER"
    · subst hI
      rw [show parseFails "INTEGER" v = (pyInt v).isNone from by
        unfold parseFails; rw [if_neg (by decide), if_pos rfl]] at hm
      have hpn : pyInt v = none := Option.isNone_iff_eq_none.mp hm
      simp [coerceValue, coerceValueTry, hv, hpn]
    · by_cases hF : ftype = "FLOAT"
      · subst hF
        rw [show parseFails "FLOAT" v = (pyFloat v).isNone from by
          unfold parseFails; rw [if_neg (by decide), if_neg (by decide), if_pos rfl]] at hm
        have hpn : pyFloat v = none := Option.isNone_iff_eq_none.mp hm
        simp [coerceValue, coerceValueTry, hv, hpn]
      · by_cases hD : ftype = "DATETIME"
        · subst hD
          simp [coerceValue, coerceValueTry, hv, strptimeListArg]
        · by_cases hT : ftype = "TIMESTAMP"
          · subst hT
            rw [show parseFails "TIMESTAMP" v =
                (time_format.all fun f => (strptime v f).isNone) from by
              unfold parseFails
              rw [if_neg (by decide), if_neg (by decide), if_neg (by decide),
                if_neg (by decide), if_pos rfl]] at hm
            have h3 : timestampLoop time_format v = none :=
              timestampLoop_eq_none v time_format fun f hf => by
                have h4 := List.all_eq_true.mp hm f hf
                simpa using h4
            simp [coerceValue, coerceValueTry, hv, h3]
          · simp [coerceValue, coerceValueTry, hv, hS, hI, hF, hD, hT]

theorem c4_malformed_value_yields_default_witness :
    coerceValue "INTEGER" "abc" = return_default_value "INTEGER" :=
  c4_malformed_value_yields_default "INTEGER" "abc" (by decide) (by decide)

/-- C5: the normalizer skips (zero output records, no exception, element
untouched) exactly when the field count of the raw record differs from the
field count of the schema; when a record is accepted, the output carries
exactly the original keys in order, each value replaced by the coercion of
its declared type.  In the embedding every record supports length
introspection, so the hasattr guard of the source never fires; the
embedding is pure, so a Skip cannot mutate the input. -/
theorem c5_skip_iff_field_count_mismatch (raw fields : List (String × String)) :
    (process raw fields = Except.ok none ↔ raw.length ≠ fields.length) ∧
    ∀ out, process raw fields = Except.ok (some out) →
      out.map Prod.fst = raw.map Prod.fst ∧
      ∀ (i : Nat) (kv : String × String), raw[i]? = some kv →
        ∃ t, dictGet fields kv.1 = some t ∧ out[i]? = some (kv.1, coerceValue t kv.2) := by
  constructor
  · constructor
    · intro h
      by_contra hlen
      unfold process at h
      rw [if_neg (fun hcon => hcon hlen)] at h
      cases hp : processFields raw fields with
      | ok out0 => rw [hp] at h; simp [Except.map] at h
      | error e => rw [hp] at h; simp [Except.map] at h
    · intro hne
      simp [process, hne]
  · intro out h
    unfold process at h
    by_cases hlen : raw.length ≠ fields.length
    · rw [if_pos hlen] at h; simp at h
    · rw [if_neg hlen] at h
      cases hp : processFields raw fields with
      | error e => rw [hp] at h; simp [Except.map] at h
      | ok out0 =>
        rw [hp] at h
        obtain rfl : out0 = out := by simpa [Except.map] using h
        exact processFields_spec raw fields out0 hp

theorem c5_skip_iff_field_count_mismatch_witness :
    process [("a", "1")] [("a", "INTEGER"), ("b", "STRING")] = Except.ok none :=
  (c5_skip_iff_field_count_mismatch [("a", "1")] [("a", "INTEGER"), ("b", "STRING")]).1.mpr
    (by decide)

/-- C6: for a non-empty TIMESTAMP value the three formats are tried in
their list order and the first success wins, producing the integer epoch
value; when every format fails the value falls back to the TIMESTAMP
default 0. -/
theorem c6_timestamp_format_order (v : String) (hv : v ≠ "") :
    ((∀ f ∈ time_format, strptime v f = none) →
      coerceValue "TIMESTAMP" v = Value.vInt 0) ∧
    (∀ tm, strptime v "%Y-%m-%d %H:%M:%S %Z" = some tm →
      coerceValue "TIMESTAMP" v = Value.vInt (mktime tm)) ∧
    (∀ tm, strptime v "%Y-%m-%d %H:%M:%S %Z" = none →
      strptime v "%Y-%m-%d %H:%M:%S" = some tm →
      coerceValue "TIMESTAMP" v = Value.vInt (mktime tm)) ∧
    (∀ tm, strptime v "%Y-%m-%d %H:%M:%S %Z" = none →
      strptime v "%Y-%m-%d %H:%M:%S" = none → strptime v "%Y-%m-%d" = some tm →
      coerceValue "TIMESTAMP" v = Value.vInt (mktime tm)) := by
  refine ⟨?_, ?_, ?_, ?_⟩
  · intro h
    rw [coerce_timestamp_eq v hv, timestampLoop_eq_none v _ h]
  · intro tm h1
    rw [coerce_timestamp_eq v hv]
    simp [time_format, timestampLoop, h1]
  · intro tm h1 h2
    rw [coerce_timestamp_eq v hv]
    simp [time_format, timestampLoop, h1, h2]
  · intro tm h1 h2 h3
    rw [coerce_timestamp_eq v hv]
    simp [time_format, timestampLoop, h1, h2, h3]

theorem c6_timestamp_format_order_witness :
    coerceValue "TIMESTAMP" "2020-01-01" = Value.vInt 1577836800 ∧
    coerceValue "TIMESTAMP" "not-a-date" = Value.vInt 0 :=
  ⟨((c6_timestamp_format_order "2020-01-01" (by decide)).2.2.2 ⟨2020, 1, 1, 0, 0, 0⟩
      (by decide) (by decide) (by decide)).trans (by decide),
   (c6_timestamp_format_order "not-a-date" (by decide)).1 (by decide)⟩

/-- C7: the documented scenario for the line 42,Alice with schema id
INTEGER, name STRING.  The normalizer and the enricher do produce the
claimed record, but the scenario cannot be reached through the codec: the
broken `FileCoder.decode` raises TypeError on the raw line before any
record exists, so the pipeline emits nothing for it. -/
theorem c7_scenario_line_42_alice :
    FileCoder.decode ⟨["id", "name"]⟩ "42,Alice" = Except.error PyErr.typeError ∧
    process [("id", "42"), ("name", "Alice")] [("id", "INTEGER"), ("name", "STRING")] =
      Except.ok (some [("id", Value.vInt 42), ("name", Value.vStr "Alice")]) ∧
    injectTimestamp 1600000000 [("id", Value.vInt 42), ("name", Value.vStr "Alice")] =
      [("id", Value.vInt 42), ("name", Value.vStr "Alice"),
        ("_RAWTIMESTAMP", Value.vInt 1600000000)] :=
  ⟨rfl, rfl, rfl⟩

/-- C8: the projected schema has one entry per schema field, positioned in
the insertion order of the schema and carrying the field name, the declared
type and the Field description, followed by exactly one trailing
RAWTIMESTAMP entry of type TIMESTAMP in the last position. -/
theorem c8_schema_projection_order (fields : List (String × String)) :
    (get_bq_schema fields).length = fields.length + 1 ∧
    (∀ i, i < fields.length → (get_bq_schema fields)[i]? =
      (fields[i]?).map fun kv => (⟨kv.1, kv.2, "Field " ++ kv.1⟩ : TableFieldSchema)) ∧
    (get_bq_schema fields)[fields.length]? =
      some ⟨"_RAWTIMESTAMP", "TIMESTAMP", "Injected timestamp"⟩ := by
  refine ⟨by simp [get_bq_schema], ?_, ?_⟩
  · intro i hi
    unfold get_bq_schema
    rw [List.getElem?_append_left (by simpa using hi)]
    simp
  · unfold get_bq_schema
    rw [List.getElem?_append_right (by simp)]
    simp

theorem c8_schema_projection_order_witness :
    (get_bq_schema [("id", "INTEGER")])[0]? = some ⟨"id", "INTEGER", "Field id"⟩ ∧
    (get_bq_schema [("id", "INTEGER")])[1]? =
      some ⟨"_RAWTIMESTAMP", "TIMESTAMP", "Injected timestamp"⟩ :=
  ⟨((c8_schema_projection_order [("id", "INTEGER")]).2.1 0 (by decide)).trans (by decide),
   (c8_schema_projection_order [("id", "INTEGER")]).2.2⟩

/-- C9: the timestamp enricher binds the reserved RAWTIMESTAMP key to the
integer epoch-second count it is given and leaves the binding of every
other key unchanged; being a total function, it always succeeds. -/
theorem c9_inject_timestamp_frame (now : Int) (element : List (String × Value)) :
    dictGet (injectTimestamp now element) "_RAWTIMESTAMP" = some (Value.vInt now) ∧
    ∀ k, k ≠ "_RAWTIMESTAMP" →
      dictGet (injectTimestamp now element) k = dictGet element k :=
  ⟨dictGet_dictSet_self element "_RAWTIMESTAMP" (Value.vInt now),
   fun k hk => dictGet_dictSet_ne element "_RAWTIMESTAMP" k (Value.vInt now) hk⟩

theorem c9_inject_timestamp_frame_witness :
    dictGet (injectTimestamp 7 [("id", Value.vInt 1)]) "_RAWTIMESTAMP" =
      some (Value.vInt 7) ∧
    dictGet (injectTimestamp 7 [("id", Value.vInt 1)]) "id" = some (Value.vInt 1) :=
  ⟨(c9_inject_timestamp_frame 7 [("id", Value.vInt 1)]).1,
   ((c9_inject_timestamp_frame 7 [("id", Value.vInt 1)]).2 "id" (by decide)).trans
     (by decide)⟩

/-- C10: a non-empty INTEGER value that is a valid float literal but not a
valid integer literal coerces to the INTEGER default 0 — the ValueError of
`int(v)` is caught and the default substituted, with no truncation or
rounding toward a nearby integer. -/
theorem c10_integer_no_truncation (v : String) (hv : v ≠ "")
    (_hfloat : (pyFloat v).isSome = true) (hint : pyInt v = none) :
    coerceValue "INTEGER" v = Value.vInt 0 := by
  simp [coerceValue, coerceValueTry, hv, hint, return_default_value]

theorem c10_integer_no_truncation_witness :
    coerceValue "INTEGER" "3.5" = Value.vInt 0 :=
  c10_integer_no_truncation "3.5" (by decide) (by decide) (by decide)
